import Mathlib

/-!
# Verification of the process-exporter tracking/aggregation core

Shallow embedding of `src/proc/tracker.go` and `src/proc/grouper.go`
(process-exporter).  Go `map`s are embedded as association lists
(`List (κ × ν)`); `time.Time` cycle markers as `Nat`; `float64` CPU
seconds and FD ratios as `ℚ` (every scenario considered uses small values
on which IEEE float64 arithmetic is exact); the `int64`/`uint64` counter
fields as `Int` (no claim exercises 64-bit wraparound, and the I/O
counters must be able to carry the `-1` "unavailable" sentinel that the
repository's newer metric types use).
-/

namespace ProcExporter

/-! ## Association-list helpers (embedding of Go maps) -/

/-- Lookup in an association list: the Go `v, ok := m[k]` read. -/
def alookup {α β : Type} [DecidableEq α] (l : List (α × β)) (k : α) : Option β :=
  (l.find? (fun p => p.1 = k)).map (·.2)

/-- Remove every binding of a key: the Go `delete(m, k)`. -/
def aerase {α β : Type} [DecidableEq α] (l : List (α × β)) (k : α) : List (α × β) :=
  l.filter (fun p => p.1 ≠ k)

/-- Set a key's binding: the Go `m[k] = v`. -/
def aset {α β : Type} [DecidableEq α] (l : List (α × β)) (k : α) (v : β) : List (α × β) :=
  (k, v) :: aerase l k

/-! ## Snapshot model

The types `ProcId`, `ProcStatic`, `ProcMetrics`, `ProcInfo`, `ProcIdInfo`
and the `Procs` iterator are declared outside the two files under `src/`.
They are modelled from the spec (§3 "DATA MODEL"): a `ProcessIdentity` is
a `(pid, startTime)` pair; `StaticAttributes` carry the display name and
command line; a `MetricSnapshot` carries cumulative CPU seconds and I/O
byte counters, where an I/O counter may be the out-of-band sentinel `-1`
("unavailable"). -/

/-- Modelled from the spec: `ProcessIdentity {pid, startTime}` — the
`(pid, startTime)` pair uniquely naming one process instance
(`startTime` disambiguates pid reuse). -/
structure ProcId where
  pid : Int
  startTime : Nat
deriving DecidableEq, Repr

/-- Modelled from the spec: `StaticAttributes` — immutable facts captured
once at discovery (display name, command line). -/
structure ProcStatic where
  name : String
  cmdline : List String
deriving DecidableEq, Repr

/-- Modelled from the spec: `MetricSnapshot` — one scan's cumulative
counters.  CPU seconds are always available; `readBytes`/`writeBytes`
may be the "unavailable" sentinel `-1` (the repository's test suite pins
this sentinel: `c.Assert(metrics.ReadBytes, Equals, int64(-1))`). -/
structure ProcMetrics where
  cpuTime : ℚ
  readBytes : Int
  writeBytes : Int
deriving DecidableEq, Repr

/-- `ProcInfo` from `tracker.go`: static attributes plus the most recent
metric snapshot (Go embeds `ProcStatic` and `ProcMetrics`). -/
structure ProcInfo where
  static : ProcStatic
  metrics : ProcMetrics
deriving DecidableEq, Repr

/-- `ProcIdInfo`: identity + static attributes + metrics, what one scan
yields for one process (modelled from the spec's `ProcessObservation`). -/
structure ProcIdInfo where
  procId : ProcId
  static : ProcStatic
  metrics : ProcMetrics
deriving DecidableEq, Repr

/-- Modelled from the spec (§6): one element of the scan iterator.  Each
of the three per-process reads (`GetProcId`, `GetMetrics`, `GetStatic`)
"may itself fail independently"; a failed read is `none`. -/
structure Obs where
  procIdRead : Option ProcId
  metricsRead : Option ProcMetrics
  staticRead : Option ProcStatic
deriving DecidableEq, Repr

/-! ## Counts and the Tracker (`src/proc/tracker.go`) -/

/-- `Counts` from `tracker.go` lines 9-13: accumulated CPU (float64) and
I/O byte deltas.  The Go `uint64` I/O fields are embedded as `Int` (see
the file comment). -/
structure Counts where
  cpu : ℚ
  readBytes : Int
  writeBytes : Int
deriving DecidableEq, Repr

/-- The zero `Counts` (Go zero value). -/
def Counts.zero : Counts := ⟨0, 0, 0⟩

/-- `Counts.Add` (declared with the repository's newer tracker, used by
`grouper.go` line 57/83): componentwise addition. -/
def Counts.add (a b : Counts) : Counts :=
  ⟨a.cpu + b.cpu, a.readBytes + b.readBytes, a.writeBytes + b.writeBytes⟩

/-- Componentwise order on `Counts` ("never decrease"). -/
def Counts.le (a b : Counts) : Prop :=
  a.cpu ≤ b.cpu ∧ a.readBytes ≤ b.readBytes ∧ a.writeBytes ≤ b.writeBytes

instance : DecidablePred fun p : Counts × Counts => p.1.le p.2 := by
  intro p; unfold Counts.le; infer_instance

/-- All components non-negative. -/
def Counts.nonneg (a : Counts) : Prop :=
  0 ≤ a.cpu ∧ 0 ≤ a.readBytes ∧ 0 ≤ a.writeBytes

instance : DecidablePred Counts.nonneg := by
  intro a; unfold Counts.nonneg; infer_instance

/-- `TrackedProc` from `tracker.go` lines 31-39: cycle marker, latest
info, cumulative accumulator, assigned group name. -/
structure TrackedProc where
  lastUpdate : Nat
  info : ProcInfo
  accum : Counts
  groupName : String
deriving DecidableEq, Repr

/-- `Tracker` from `tracker.go` lines 25-29.  `Tracked` is
`map[ProcId]*TrackedProc`; a binding to `none` embeds a Go `nil` pointer
value — a tombstone ("Processes may be blacklisted … by setting their
value in the Tracked map to nil", lines 22-24).  `ProcIds` is
`map[int]ProcId`, the pid → identity index. -/
structure Tracker where
  tracked : List (ProcId × Option TrackedProc)
  procIds : List (Int × ProcId)
deriving DecidableEq, Repr

/-- `NewTracker` (`tracker.go` lines 54-56): empty maps. -/
def Tracker.empty : Tracker := ⟨[], []⟩

/-- `Tracker.Track` (`tracker.go` lines 62-65): unconditionally installs
a fresh entry with a zero accumulator and zero cycle marker (Go zero
`time.Time`); it does not consult the existing binding. -/
def Tracker.track (t : Tracker) (groupName : String) (idinfo : ProcIdInfo) : Tracker :=
  let fresh : TrackedProc := ⟨0, ⟨idinfo.static, idinfo.metrics⟩, Counts.zero, groupName⟩
  { t with tracked := aset t.tracked idinfo.procId (some fresh) }

/-- Modelled from the spec (§4.2 `Ignore`, absent from `src/`): "marks
`identity` as a tombstone".  Per the source comment on `Tracker`
(lines 22-24), a tombstone is a `nil` value in the `Tracked` map. -/
def Tracker.ignore (t : Tracker) (procId : ProcId) : Tracker :=
  { t with tracked := aset t.tracked procId none }

/-- One iteration of the scan loop of `Tracker.Update` (`tracker.go`
lines 70-120), threading the `(tracker, newProcs)` state:
failed `GetProcId`/`GetMetrics`/`GetStatic` reads `continue`; a
tombstone (`known && last == nil`) is skipped; a known live proc gets
the unconditional delta/accumulate/overwrite treatment of lines 88-103;
an unknown proc is appended to `newProcs` and evicts a same-pid old
identity (lines 109-117). -/
def scanStep (now : Nat) (st : Tracker × List ProcIdInfo) (o : Obs) :
    Tracker × List ProcIdInfo :=
  match o.procIdRead with
  | none => st                      -- GetProcId failed: continue
  | some procId =>
    match alookup st.1.tracked procId with
    | some none => st               -- known tombstone: continue
    | some (some last) =>
      match o.metricsRead with
      | none => st                  -- GetMetrics failed: continue
      | some metrics =>
        -- lines 88-103: unconditional deltas, overwrite info, bump marker
        let dcpu := metrics.cpuTime - last.info.metrics.cpuTime
        let drbytes := metrics.readBytes - last.info.metrics.readBytes
        let dwbytes := metrics.writeBytes - last.info.metrics.writeBytes
        let lastaccum : Counts := ⟨dcpu, drbytes, dwbytes⟩
        let newaccum : Counts :=
          ⟨last.accum.cpu + lastaccum.cpu,
           last.accum.readBytes + lastaccum.readBytes,
           last.accum.writeBytes + lastaccum.writeBytes⟩
        let upd : TrackedProc :=
          { last with info := { last.info with metrics := metrics },
                      lastUpdate := now, accum := newaccum }
        ({ st.1 with tracked := aset st.1.tracked procId (some upd) }, st.2)
    | none =>
      match o.metricsRead with
      | none => st                  -- GetMetrics failed: continue
      | some metrics =>
        match o.staticRead with
        | none => st                -- GetStatic failed: continue
        | some static =>
          -- lines 109-117: report as new; evict a same-pid old identity
          let newProcs := st.2 ++ [⟨procId, static, metrics⟩]
          let t1 :=
            match alookup st.1.procIds procId.pid with
            | some oldProcId => { st.1 with tracked := aerase st.1.tracked oldProcId }
            | none => st.1
          ({ t1 with procIds := aset t1.procIds procId.pid procId }, newProcs)

/-- The staleness sweep of `Tracker.Update` (`tracker.go` lines 126-131)
cannot complete when a tombstone is present: the loop body reads
`pinfo.lastUpdate` from each value, and a tombstone's value is a `nil`
pointer, so Go dereferences `nil` and panics.  Otherwise every live
entry not marked this cycle is deleted together with its pid index
entry.  `none` embeds the panic. -/
def sweep (now : Nat) (t : Tracker) : Option Tracker :=
  if t.tracked.any (fun p => p.2.isNone) then
    none
  else
    let isFresh : ProcId × Option TrackedProc → Bool := fun p =>
      match p.2 with
      | some tp => tp.lastUpdate = now
      | none => false
    let stale := t.tracked.filter (fun p => !(isFresh p))
    some ⟨t.tracked.filter isFresh,
          stale.foldl (fun m p => aerase m p.1.pid) t.procIds⟩

/-- Outcome of one `Tracker.Update` call: normal completion with the new
state and the newly discovered procs; the fatal iterator-close failure
(`tracker.go` lines 121-124), which returns a `nil` list and an error
with the scan's mutations already applied but before the sweep; or the
nil-dereference panic in the sweep. -/
inductive UpdateResult where
  | ok (st : Tracker) (newProcs : List ProcIdInfo)
  | closeFailed (st : Tracker) (msg : String)
  | panicked (st : Tracker)
deriving DecidableEq, Repr

/-- `Tracker.Update` (`tracker.go` lines 67-134): scan loop, `Close`,
then the staleness sweep.  `now` is the fresh cycle marker
(`time.Now()`); `closeOk` is whether `procs.Close()` succeeds. -/
def Tracker.update (t : Tracker) (now : Nat) (obs : List Obs) (closeOk : Bool) :
    UpdateResult :=
  let st := obs.foldl (scanStep now) (t, [])
  if closeOk then
    match sweep now st.1 with
    | some t2 => .ok t2 st.2
    | none => .panicked st.1
  else
    .closeFailed st.1 "Error reading procs"

/-- The tracker state of a normally completed update, if any. -/
def UpdateResult.okState : UpdateResult → Option Tracker
  | .ok st _ => some st
  | _ => none

/-- The new-process list of a normally completed update, if any. -/
def UpdateResult.okNew : UpdateResult → Option (List ProcIdInfo)
  | .ok _ ns => some ns
  | _ => none

/-- The cumulative accumulator currently recorded for a live tracked
identity. -/
def Tracker.accumOf (t : Tracker) (p : ProcId) : Option Counts :=
  match alookup t.tracked p with
  | some (some tp) => some tp.accum
  | _ => none

/-- The latest stored metric snapshot for a live tracked identity. -/
def Tracker.lastMetricsOf (t : Tracker) (p : ProcId) : Option ProcMetrics :=
  match alookup t.tracked p with
  | some (some tp) => some tp.info.metrics
  | _ => none

/-- Run successive successful update cycles (cycle markers 1, 2, …),
failing if any cycle does not complete normally. -/
def Tracker.runCycles (t : Tracker) (now : Nat) :
    List (List Obs) → Option (Tracker × List (List ProcIdInfo))
  | [] => some (t, [])
  | obs :: rest =>
    match t.update now obs true with
    | .ok t2 ns =>
      (t2.runCycles (now + 1) rest).map (fun r => (r.1, ns :: r.2))
    | _ => none

/-! ## The Grouper (`src/proc/grouper.go`)

`grouper.go` consumes the repository's *newer* tracker: its
`g.tracker.Update(iter)` returns `(CollectErrors, []Update, error)`,
whereas the `tracker.go` under `src/` (an older revision) returns only
`([]ProcIdInfo, error)`.  The `Update` record type and that newer
return convention are therefore modelled from the spec (§2: the data
flow hands "deltas + lifecycle bookkeeping" from `Tracker.Update` to
`Grouper.Update`); `Update.latest` carries the proc's *per-cycle* delta
— the quantity the old tracker computes into its `lastaccum` variable
(lines 89-94) — and the whole tracker call is abstracted as
`Option (List Update)`, `none` being the fatal-error outcome. -/

/-- `Memory` as consumed by `grouper.go` lines 47-48
(`ResidentBytes`/`VirtualBytes`). -/
structure Memory where
  residentBytes : Nat
  virtualBytes : Nat
deriving DecidableEq, Repr

/-- File-descriptor stats as consumed by `grouper.go` lines 49-52:
`Open` (with `-1` as the "unavailable" sentinel) and `Limit`. -/
structure Filedesc where
  open_ : Int
  limit : Nat
deriving DecidableEq, Repr

/-- `Group` from `grouper.go` lines 23-31. -/
structure Group where
  counts : Counts
  procs : Nat
  memory : Memory
  oldestStartTime : Nat
  openFDs : Int
  worstFDratio : ℚ
  numThreads : Nat
deriving DecidableEq, Repr

/-- The Go zero `Group` (value of a missing map key). -/
def Group.zero : Group := ⟨Counts.zero, 0, ⟨0, 0⟩, 0, 0, 0, 0⟩

/-- Modelled from the spec: the per-tracked-proc record the newer
`Tracker.Update` hands to the Grouper (absent from `src/`); `latest` is
the per-cycle delta (see the section comment above). -/
structure Update where
  groupName : String
  latest : Counts
  memory : Memory
  filedesc : Filedesc
  start : Nat
  numThreads : Nat
deriving DecidableEq, Repr

/-- `groupadd` (`grouper.go` lines 43-63), field for field and in source
order: member count, memory sums, open-FD sum guarded by the `-1`
sentinel, worst (maximum) FD-utilisation ratio, thread sum,
`Counts.Add(ts.Latest)`, and oldest start time (with the Go zero-time
test `grp.OldestStartTime == zeroTime` embedded as `= 0`). -/
def groupadd (grp : Group) (ts : Update) : Group :=
  let grp := { grp with procs := grp.procs + 1 }
  let mem : Memory := ⟨grp.memory.residentBytes + ts.memory.residentBytes,
                       grp.memory.virtualBytes + ts.memory.virtualBytes⟩
  let grp := { grp with memory := mem }
  let grp := if ts.filedesc.open_ ≠ -1 then
               { grp with openFDs := grp.openFDs + ts.filedesc.open_ }
             else grp
  let openratio : ℚ := (ts.filedesc.open_ : ℚ) / (ts.filedesc.limit : ℚ)
  let grp := if grp.worstFDratio < openratio then
               { grp with worstFDratio := openratio }
             else grp
  let grp := { grp with numThreads := grp.numThreads + ts.numThreads }
  let grp := { grp with counts := grp.counts.add ts.latest }
  if grp.oldestStartTime = 0 ∨ ts.start < grp.oldestStartTime then
    { grp with oldestStartTime := ts.start }
  else grp

/-- One iteration of the first loop of `Grouper.Update` (`grouper.go`
line 76): `groups[update.GroupName] = groupadd(groups[update.GroupName],
update)`, a missing key reading as the zero `Group`. -/
def buildStep (groups : String → Option Group) (u : Update) : String → Option Group :=
  fun n =>
    if n = u.groupName then some (groupadd ((groups u.groupName).getD Group.zero) u)
    else groups n

/-- The first loop of `Grouper.Update` (`grouper.go` lines 75-77). -/
def buildGroups (tracked : List Update) : String → Option Group :=
  tracked.foldl buildStep (fun _ => none)

/-- `Grouper.Update` (`grouper.go` lines 68-97) over the grouper's own
state `ga` (the `groupAccum` map).  `tres` is the newer tracker's
outcome (`none` = error).  Error path (lines 70-72): return at once,
`groupAccum` untouched, no group map.  Success path: build this cycle's
groups (lines 75-77); add `groupAccum` to each observed group's counts
and store the sum back into `groupAccum` (lines 81-87); emit a
floor-only `Group{Counts: gcounts}` for accumulated groups not observed
this cycle (lines 90-94). -/
def grouperUpdate (ga : String → Option Counts) (tres : Option (List Update)) :
    (String → Option Counts) × Option (String → Option Group) :=
  match tres with
  | none => (ga, none)
  | some tracked =>
    let groups := buildGroups tracked
    let groups2 : String → Option Group := fun n =>
      match groups n with
      | none => none
      | some group =>
        match ga n with
        | some oldcounts => some { group with counts := group.counts.add oldcounts }
        | none => some group
    let ga2 : String → Option Counts := fun n =>
      match groups2 n with
      | some g => some g.counts
      | none => ga n
    let groupsFinal : String → Option Group := fun n =>
      match groups2 n with
      | some g => some g
      | none =>
        match ga n with
        | some gcounts => some { Group.zero with counts := gcounts }
        | none => none
    (ga2, some groupsFinal)

/-- `groupAccum` after a sequence of successful cycles. -/
def grouperRunAcc (ga : String → Option Counts) :
    List (List Update) → (String → Option Counts)
  | [] => ga
  | us :: rest => grouperRunAcc (grouperUpdate ga (some us)).1 rest

/-- The group map emitted by the last of a sequence of successful
cycles. -/
def grouperRunEmit (ga : String → Option Counts) :
    List (List Update) → Option (String → Option Group)
  | [] => none
  | [us] => (grouperUpdate ga (some us)).2
  | us :: rest => grouperRunEmit (grouperUpdate ga (some us)).1 rest

/-- The cumulative counters emitted for one group by an emission map. -/
def emitCounts (e : Option (String → Option Group)) (g : String) : Option Counts :=
  match e with
  | some f => (f g).map (·.counts)
  | none => none

/-! ## Concrete scenario data used by the claims -/

/-- The identity `(pid=1, start=1)` of the delta-accumulation and
sentinel scenarios. -/
def pid1 : ProcId := ⟨1, 1⟩

/-- Static attributes of the scenario process. -/
def static1 : ProcStatic := ⟨"p1", []⟩

/-- The `{cpu=1, read=2, write=3}` snapshot of the spec's
delta-accumulation scenario. -/
def m123 : ProcMetrics := ⟨1, 2, 3⟩

/-- The `{cpu=2, read=3, write=4}` snapshot. -/
def m234 : ProcMetrics := ⟨2, 3, 4⟩

/-- The `{cpu=4, read=6, write=8}` snapshot. -/
def m468 : ProcMetrics := ⟨4, 6, 8⟩

/-- A per-cycle group record for group `"g"` whose counter delta is `c`
and whose other aggregate inputs are zero (FD limit 1). -/
def mkGUpd (c : Counts) : Update := ⟨"g", c, ⟨0, 0⟩, ⟨0, 1⟩, 0, 0⟩

/-- A one-read-byte delta. -/
def dR : Counts := ⟨0, 1, 0⟩

/-- The A/B scenario of the group-accumulation claim: members A and B
contribute per-cycle deltas `a1 b1`, `a2 b2`, `a3 b3` over three
cycles; A exits, and cycle 4 contains only B's delta `b4`. -/
def c1Cycles (a1 a2 a3 b1 b2 b3 b4 : Counts) : List (List Update) :=
  [[mkGUpd a1, mkGUpd b1], [mkGUpd a2, mkGUpd b2], [mkGUpd a3, mkGUpd b3],
   [mkGUpd b4]]


/-- A tracker tracking identity `(pid=5, start=100)` with its pid
indexed, for the pid-reuse scenario. -/
def c5t : Tracker :=
  ⟨[(⟨5, 100⟩, some ⟨0, ⟨static1, m123⟩, Counts.zero, "g1"⟩)], [(5, ⟨5, 100⟩)]⟩

/-- A member record whose open-descriptor count is the `-1` sentinel
(limit 4). -/
def uSent : Update := ⟨"g", dR, ⟨0, 0⟩, ⟨-1, 4⟩, 0, 0⟩

/-- An observation whose per-process metric read fails mid-scan. -/
def obsFail : Obs := ⟨some ⟨2, 7⟩, none, none⟩

/-- A fully readable observation of a fresh process `(pid=3, start=9)`. -/
def obsGood : Obs := ⟨some ⟨3, 9⟩, some m123, some static1⟩

end ProcExporter

namespace ProcExporter

/-! ## Association-list lemmas -/

@[simp] theorem alookup_nil {α β : Type} [DecidableEq α] (k : α) :
    alookup ([] : List (α × β)) k = none := rfl

@[simp] theorem alookup_cons {α β : Type} [DecidableEq α] (k a : α) (b : β)
    (l : List (α × β)) :
    alookup ((a, b) :: l) k = if a = k then some b else alookup l k := by
  by_cases h : a = k <;> simp [alookup, List.find?, h]

@[simp] theorem aerase_nil {α β : Type} [DecidableEq α] (k : α) :
    aerase ([] : List (α × β)) k = [] := rfl

theorem aerase_cons {α β : Type} [DecidableEq α] (k a : α) (b : β) (l : List (α × β)) :
    aerase ((a, b) :: l) k =
      if a = k then aerase l k else (a, b) :: aerase l k := by
  by_cases h : a = k <;> simp [aerase, h]

theorem alookup_aerase {α β : Type} [DecidableEq α]
    (l : List (α × β)) (k k' : α) :
    alookup (aerase l k) k' = if k = k' then none else alookup l k' := by
  induction l with
  | nil => simp
  | cons p t ih =>
    obtain ⟨a, b⟩ := p
    rw [aerase_cons]
    by_cases hak : a = k
    · subst hak
      by_cases hkk : a = k'
      · subst hkk
        simp [ih]
      · simp [ih, hkk]
    · by_cases hkk : k = k'
      · subst hkk
        simp [alookup_cons, hak, ih]
      · by_cases hak' : a = k' <;>
          simp [alookup_cons, hak, hak', ih, hkk, Ne.symm hkk]

@[simp] theorem alookup_aerase_self {α β : Type} [DecidableEq α]
    (l : List (α × β)) (k : α) : alookup (aerase l k) k = none := by
  simp [alookup_aerase]

@[simp] theorem alookup_aerase_ne {α β : Type} [DecidableEq α]
    (l : List (α × β)) (k k' : α) (h : k ≠ k') :
    alookup (aerase l k) k' = alookup l k' := by
  simp [alookup_aerase, h]

@[simp] theorem alookup_aset_self {α β : Type} [DecidableEq α]
    (l : List (α × β)) (k : α) (v : β) : alookup (aset l k v) k = some v := by
  simp [aset]

@[simp] theorem alookup_aset_ne {α β : Type} [DecidableEq α]
    (l : List (α × β)) (k k' : α) (v : β) (h : k ≠ k') :
    alookup (aset l k v) k' = alookup l k' := by
  simp [aset, h, alookup_aerase]

/-! ## Counts lemmas -/

theorem Counts.zero_nonneg : Counts.zero.nonneg := by
  refine ⟨le_refl 0, le_refl 0, le_refl 0⟩

theorem Counts.add_nonneg {a b : Counts} (ha : a.nonneg) (hb : b.nonneg) :
    (a.add b).nonneg := by
  obtain ⟨h1, h2, h3⟩ := ha
  obtain ⟨h4, h5, h6⟩ := hb
  refine ⟨?_, ?_, ?_⟩ <;> simp [Counts.add] <;> linarith

theorem Counts.le_refl (a : Counts) : a.le a :=
  ⟨le_rfl, le_rfl, le_rfl⟩

theorem Counts.le_add_of_nonneg_left {b : Counts} (a : Counts) (hb : b.nonneg) :
    a.le (b.add a) := by
  obtain ⟨h1, h2, h3⟩ := hb
  refine ⟨?_, ?_, ?_⟩ <;> simp [Counts.add] <;> linarith

/-! ## groupadd lemmas -/

theorem groupadd_counts (grp : Group) (ts : Update) :
    (groupadd grp ts).counts = grp.counts.add ts.latest := by
  simp only [groupadd]
  split <;> split <;> split <;> rfl

theorem groupadd_worst (grp : Group) (ts : Update) :
    (groupadd grp ts).worstFDratio =
      if grp.worstFDratio < (ts.filedesc.open_ : ℚ) / (ts.filedesc.limit : ℚ) then
        (ts.filedesc.open_ : ℚ) / (ts.filedesc.limit : ℚ)
      else grp.worstFDratio := by
  simp only [groupadd]
  split <;> split <;> split <;> simp_all

theorem groupadd_worst_le (grp : Group) (ts : Update) :
    grp.worstFDratio ≤ (groupadd grp ts).worstFDratio := by
  rw [groupadd_worst]
  split
  · exact le_of_lt (by assumption)
  · exact le_rfl

theorem groupadd_worst_sentinel (grp : Group) (ts : Update)
    (h : ts.filedesc.open_ = -1) (h0 : 0 ≤ grp.worstFDratio) :
    (groupadd grp ts).worstFDratio = grp.worstFDratio := by
  rw [groupadd_worst, if_neg]
  rw [not_lt, h]
  calc ((-1 : Int) : ℚ) / (ts.filedesc.limit : ℚ)
      ≤ 0 := div_nonpos_of_nonpos_of_nonneg (by norm_num) (by positivity)
    _ ≤ grp.worstFDratio := h0

/-! ## buildGroups invariants -/

theorem buildGroups_foldl_worst_nonneg (us : List Update) :
    ∀ m : String → Option Group,
      (∀ n g, m n = some g → 0 ≤ g.worstFDratio) →
      ∀ n g, (us.foldl buildStep m) n = some g → 0 ≤ g.worstFDratio := by
  induction us with
  | nil => intro m hm; exact hm
  | cons u rest ih =>
    intro m hm
    refine ih (buildStep m u) ?_
    intro n g hg
    unfold buildStep at hg
    by_cases hn : n = u.groupName
    · rw [if_pos hn] at hg
      obtain rfl : groupadd ((m u.groupName).getD Group.zero) u = g := by
        injection hg
      refine le_trans ?_ (groupadd_worst_le _ u)
      cases hmu : m u.groupName with
      | none => simp [hmu, Group.zero]
      | some g0 => simpa [hmu] using hm u.groupName g0 hmu
    · rw [if_neg hn] at hg
      exact hm n g hg

theorem buildGroups_worst_nonneg (us : List Update) (n : String) (g : Group)
    (hg : buildGroups us n = some g) : 0 ≤ g.worstFDratio :=
  buildGroups_foldl_worst_nonneg us (fun _ => none) (by intro n g h; cases h) n g hg

theorem buildGroups_foldl_counts_nonneg (us : List Update) :
    ∀ m : String → Option Group,
      (∀ u ∈ us, u.latest.nonneg) →
      (∀ n g, m n = some g → g.counts.nonneg) →
      ∀ n g, (us.foldl buildStep m) n = some g → g.counts.nonneg := by
  induction us with
  | nil => intro m _ hm; exact hm
  | cons u rest ih =>
    intro m hnn hm
    refine ih (buildStep m u) (fun v hv => hnn v (List.mem_cons_of_mem u hv)) ?_
    intro n g hg
    unfold buildStep at hg
    by_cases hn : n = u.groupName
    · rw [if_pos hn] at hg
      obtain rfl : groupadd ((m u.groupName).getD Group.zero) u = g := by
        injection hg
      rw [groupadd_counts]
      refine Counts.add_nonneg ?_ (hnn u (List.mem_cons_self u rest))
      cases hmu : m u.groupName with
      | none => simpa [hmu] using Counts.zero_nonneg
      | some g0 => simpa [hmu] using hm u.groupName g0 hmu
    · rw [if_neg hn] at hg
      exact hm n g hg

theorem buildGroups_counts_nonneg (us : List Update)
    (hnn : ∀ u ∈ us, u.latest.nonneg) (n : String) (g : Group)
    (hg : buildGroups us n = some g) : g.counts.nonneg :=
  buildGroups_foldl_counts_nonneg us (fun _ => none) hnn
    (by intro n g h; cases h) n g hg

/-! ## grouperUpdate lemmas -/

theorem grouperUpdate_emit_eq_acc (ga : String → Option Counts)
    (us : List Update) (n : String) :
    emitCounts (grouperUpdate ga (some us)).2 n = (grouperUpdate ga (some us)).1 n := by
  simp only [grouperUpdate, emitCounts]
  cases hb : buildGroups us n <;> cases hg : ga n <;> simp [hb, hg]

theorem grouperUpdate_acc_mono (ga : String → Option Counts) (us : List Update)
    (n : String) (c : Counts)
    (hnn : ∀ u ∈ us, u.latest.nonneg) (hc : ga n = some c) :
    ∃ c2, (grouperUpdate ga (some us)).1 n = some c2 ∧ c.le c2 := by
  cases hb : buildGroups us n with
  | none => exact ⟨c, by simp [grouperUpdate, hb, hc], Counts.le_refl c⟩
  | some g =>
    refine ⟨g.counts.add c, by simp [grouperUpdate, hb, hc], ?_⟩
    exact Counts.le_add_of_nonneg_left c (buildGroups_counts_nonneg us hnn n g hb)

/-! ## Claim theorems -/

/-- **C6** (confirmed): a tracked process whose counters move from
`{cpu=1, read=2, write=3}` to `{cpu=2, read=3, write=4}` and then to
`{cpu=4, read=6, write=8}` over two update cycles ends with a
cumulative accumulator of exactly `{cpu=3, read=4, write=5}`, the sum
of the successive per-cycle deltas. -/
theorem c6_delta_accumulation :
    (((Tracker.empty.track "g1" ⟨pid1, static1, m123⟩).runCycles 1
        [[⟨some pid1, some m234, none⟩], [⟨some pid1, some m468, none⟩]]).bind
      (fun r => r.1.accumOf pid1)) = some ⟨3, 4, 5⟩ := by
  simp +decide [Tracker.runCycles, Tracker.update, scanStep, sweep, Tracker.track,
    Tracker.empty, aset, aerase, alookup, Tracker.accumOf, pid1, static1,
    m123, m234, m468, Counts.zero]
  norm_num

/-- **C2** (code bug): the claim (and the spec's §4.2 rule) says that
when the current or last-recorded value of an I/O counter is the
unavailable sentinel `-1`, the delta added that cycle is zero and the
stored last-recorded value is left unchanged.  The code (`tracker.go`
lines 88-103) has no sentinel handling at all: for a tracked process
whose last-recorded counters are `read=100, write=200` and whose
current cycle reports the sentinel, it adds the spurious negative
deltas `-101`/`-201` into the accumulator and overwrites the stored
last-recorded values with the sentinel. -/
theorem c2_sentinel_rule_violated :
    (((Tracker.empty.track "g1" ⟨pid1, static1, ⟨0, 100, 200⟩⟩).update 1
        [⟨some pid1, some ⟨0, -1, -1⟩, none⟩] true).okState.map
      (fun st => (st.accumOf pid1, st.lastMetricsOf pid1)))
      = some (some ⟨0, -101, -201⟩, some ⟨0, -1, -1⟩) := by
  simp +decide [Tracker.update, scanStep, sweep, Tracker.track, Tracker.empty,
    aset, aerase, alookup, Tracker.accumOf, Tracker.lastMetricsOf,
    UpdateResult.okState, pid1, static1, Counts.zero]

/-- **C3** (code bug): the claim (and the spec's §4.2/§9 resolution)
says a tombstoned identity survives the post-scan staleness sweep
indefinitely.  In the code, a tombstone is a `nil` value in the
`Tracked` map, and the sweep (`tracker.go` lines 126-131) reads
`pinfo.lastUpdate` from every value unconditionally, so the very first
`Update` after an `Ignore` dereferences the `nil` tombstone and
panics — here shown for a cycle whose scan contains the ignored
process (which the scan loop itself skips correctly at lines 79-81). -/
theorem c3_tombstone_sweep_panics :
    (Tracker.empty.ignore pid1).update 1 [⟨some pid1, some m234, some static1⟩] true
      = .panicked ⟨[(pid1, none)], []⟩ := by decide

/-- **C8** (code bug): a mid-scan per-process read failure is skipped
and the iterator is drained without failing the update, but contrary to
the claim (and to `grouper.go` line 69, which consumes per-process
collect errors from `tracker.Update`), nothing in the returned result
records the failure: the update over `[obsFail, obsGood]` is
indistinguishable from the update over `[obsGood]` alone. -/
theorem c8_read_failure_skipped_not_recorded :
    Tracker.update Tracker.empty 1 [obsFail, obsGood] true
        = Tracker.update Tracker.empty 1 [obsGood] true ∧
      (Tracker.update Tracker.empty 1 [obsFail, obsGood] true).okNew
        = some [⟨⟨3, 9⟩, static1, m123⟩] := by decide

/-- **C1** (counterexample): with every per-cycle delta equal to one
read byte, the group's emitted cycle-3 total is 6 and its cycle-4 total
is 7 = cycle-3 total + B's cycle-4 growth (A's frozen final total of 3
is already inside the cycle-3 total); the claim's equation "cycle-4
totals = cycle-3 totals + B's cycle-4 growth + A's frozen final total"
would give 6 + 1 + 3 = 10 and is false. -/
theorem c1_group_accumulation_counterexample :
    emitCounts (grouperRunEmit (fun _ => none)
        [[mkGUpd dR, mkGUpd dR], [mkGUpd dR, mkGUpd dR], [mkGUpd dR, mkGUpd dR]]) "g"
      = some ⟨0, 6, 0⟩ ∧
    emitCounts (grouperRunEmit (fun _ => none) (c1Cycles dR dR dR dR dR dR dR)) "g"
      = some ⟨0, 7, 0⟩ ∧
    emitCounts (grouperRunEmit (fun _ => none) (c1Cycles dR dR dR dR dR dR dR)) "g"
      ≠ some ((Counts.mk 0 6 0).add (dR.add ⟨0, 3, 0⟩)) := by
  norm_num [grouperRunEmit, grouperUpdate, buildGroups, buildStep, groupadd,
    emitCounts, mkGUpd, dR, c1Cycles, Counts.add, Group.zero, Counts.zero]

/-- **C7** (counterexample): `Track` on an already-tombstoned identity
is not a no-op — the tombstone is replaced by a fresh tracked entry
with a zeroed accumulator. -/
theorem c7_track_tombstone_counterexample :
    alookup (((Tracker.empty.ignore pid1).track "g1" ⟨pid1, static1, m123⟩).tracked) pid1
        = some (some ⟨0, ⟨static1, m123⟩, Counts.zero, "g1"⟩) ∧
      alookup (((Tracker.empty.ignore pid1).track "g1" ⟨pid1, static1, m123⟩).tracked) pid1
        ≠ some none := by decide


/-- **C9** (confirmed): if closing the observation iterator fails, the
cycle is fatal: `Tracker.Update` returns an error carrying no
new-process list and no completed state, and `Grouper.Update`
propagates the error, emitting no group map for the cycle and leaving
the retained per-group accumulators (`groupAccum`) unchanged. -/
theorem c9_close_failure_fatal (t : Tracker) (now : Nat) (obs : List Obs)
    (ga : String → Option Counts) :
    (∃ st, Tracker.update t now obs false = .closeFailed st "Error reading procs") ∧
      (Tracker.update t now obs false).okNew = none ∧
      (Tracker.update t now obs false).okState = none ∧
      grouperUpdate ga none = (ga, none) := by
  refine ⟨⟨(obs.foldl (scanStep now) (t, [])).1, ?_⟩, ?_, ?_, rfl⟩ <;>
    simp [Tracker.update, UpdateResult.okNew, UpdateResult.okState]

/-- **C4** (confirmed): for any group and any two consecutive successful
`Grouper.Update` cycles, whatever the membership churn, the emitted
cumulative counters do not decrease, provided the per-cycle deltas fed
into the second cycle are non-negative (the spec's monotone-counter
premise). -/
theorem c4_group_counts_monotone (ga : String → Option Counts)
    (us1 us2 : List Update) (g : String) (c1 c2 : Counts)
    (hnn : ∀ u ∈ us2, u.latest.nonneg)
    (e1 : emitCounts (grouperUpdate ga (some us1)).2 g = some c1)
    (e2 : emitCounts (grouperUpdate (grouperUpdate ga (some us1)).1 (some us2)).2 g
      = some c2) :
    c1.le c2 := by
  rw [grouperUpdate_emit_eq_acc] at e1 e2
  obtain ⟨c', hc', hle⟩ :=
    grouperUpdate_acc_mono ((grouperUpdate ga (some us1)).1) us2 g c1 hnn e1
  have hcc : c' = c2 := by
    have h := hc'.symm.trans e2
    injection h
  rwa [hcc] at hle

theorem c4_group_counts_monotone_witness :
    (∀ u ∈ [mkGUpd dR], u.latest.nonneg) ∧ (Counts.mk 0 1 0).le ⟨0, 2, 0⟩ := by
  constructor
  · intro u hu
    simp only [List.mem_singleton] at hu
    subst hu
    decide
  · refine c4_group_counts_monotone (fun _ => none) [mkGUpd dR] [mkGUpd dR] "g"
      ⟨0, 1, 0⟩ ⟨0, 2, 0⟩ ?_ ?_ ?_
    · intro u hu
      simp only [List.mem_singleton] at hu
      subst hu
      decide
    · norm_num [grouperUpdate, buildGroups, buildStep, groupadd, emitCounts,
        mkGUpd, dR, Counts.add, Group.zero, Counts.zero]
    · norm_num [grouperUpdate, buildGroups, buildStep, groupadd, emitCounts,
        mkGUpd, dR, Counts.add, Group.zero, Counts.zero]

/-- **C5** (confirmed): observing `(pid, start2)` while `(pid, start1)`
is in the pid index and the tracked set causes the scan itself (before
any staleness pass) to evict the old identity, repoint the pid index at
the new identity, and report the new identity as newly discovered —
without creating any tracked entry for it (no continuation of the old
one). -/
theorem c5_pid_reuse_eviction (t : Tracker) (e : TrackedProc)
    (oldId newId : ProcId) (st : ProcStatic) (m : ProcMetrics) (now : Nat)
    (hTracked : alookup t.tracked oldId = some (some e))
    (hIdx : alookup t.procIds newId.pid = some oldId)
    (hUnknown : alookup t.tracked newId = none) :
    alookup (scanStep now (t, []) ⟨some newId, some m, some st⟩).1.tracked oldId = none ∧
      alookup (scanStep now (t, []) ⟨some newId, some m, some st⟩).1.procIds newId.pid
        = some newId ∧
      (scanStep now (t, []) ⟨some newId, some m, some st⟩).2 = [⟨newId, st, m⟩] ∧
      alookup (scanStep now (t, []) ⟨some newId, some m, some st⟩).1.tracked newId = none := by
  refine ⟨?_, ?_, ?_, ?_⟩ <;> simp [scanStep, hUnknown, hIdx, alookup_aerase]

theorem c5_pid_reuse_eviction_witness :
    alookup (scanStep 2 (c5t, []) ⟨some ⟨5, 200⟩, some m234, some static1⟩).1.tracked
        ⟨5, 100⟩ = none ∧
      alookup (scanStep 2 (c5t, []) ⟨some ⟨5, 200⟩, some m234, some static1⟩).1.procIds
        ((5 : Int)) = some ⟨5, 200⟩ ∧
      (scanStep 2 (c5t, []) ⟨some ⟨5, 200⟩, some m234, some static1⟩).2
        = [⟨⟨5, 200⟩, static1, m234⟩] ∧
      alookup (scanStep 2 (c5t, []) ⟨some ⟨5, 200⟩, some m234, some static1⟩).1.tracked
        ⟨5, 200⟩ = none :=
  c5_pid_reuse_eviction c5t ⟨0, ⟨static1, m123⟩, Counts.zero, "g1"⟩ ⟨5, 100⟩ ⟨5, 200⟩
    static1 m234 2 (by decide) (by decide) (by decide)

/-- **C7** (corrected): calling `Track` on an already-tombstoned
identity is not a no-op — it unconditionally replaces the tombstone
with a fresh tracked entry (zero accumulator, zero cycle marker), so
the identity resumes being tracked. -/
theorem c7_track_tombstone_amended (t : Tracker) (gname : String) (idinfo : ProcIdInfo)
    (h : alookup t.tracked idinfo.procId = some none) :
    alookup ((t.track gname idinfo).tracked) idinfo.procId
        = some (some ⟨0, ⟨idinfo.static, idinfo.metrics⟩, Counts.zero, gname⟩) := by
  simp [Tracker.track]

theorem c7_track_tombstone_amended_witness :
    alookup (((Tracker.empty.ignore pid1).track "g1" ⟨pid1, static1, m123⟩).tracked) pid1
      = some (some ⟨0, ⟨static1, m123⟩, Counts.zero, "g1"⟩) :=
  c7_track_tombstone_amended (Tracker.empty.ignore pid1) "g1" ⟨pid1, static1, m123⟩
    (by decide)

/-- **C10** (confirmed): in every group aggregate built by the
`groupadd` fold, the worst FD-utilisation ratio is non-negative; a
member whose open-descriptor count is the `-1` sentinel never replaces
the running maximum (its ratio is negative whenever the limit is
positive, and the maximum starts at the zero group's `0`). -/
theorem c10_worst_fd_ratio :
    (∀ (us : List Update) (n : String) (g : Group),
        buildGroups us n = some g → 0 ≤ g.worstFDratio) ∧
      (∀ (grp : Group) (ts : Update), ts.filedesc.open_ = -1 →
        0 ≤ grp.worstFDratio → (groupadd grp ts).worstFDratio = grp.worstFDratio) ∧
      (∀ ts : Update, ts.filedesc.open_ = -1 → 0 < ts.filedesc.limit →
        (ts.filedesc.open_ : ℚ) / (ts.filedesc.limit : ℚ) < 0) ∧
      Group.zero.worstFDratio = 0 := by
  refine ⟨buildGroups_worst_nonneg, groupadd_worst_sentinel, ?_, rfl⟩
  intro ts h hl
  rw [h]
  push_cast
  apply div_neg_of_neg_of_pos (by norm_num)
  exact_mod_cast hl

theorem c10_worst_fd_ratio_witness :
    (0 : ℚ) ≤ (Group.mk ⟨0, 1, 0⟩ 1 ⟨0, 0⟩ 0 0 0 0).worstFDratio ∧
      (groupadd (Group.mk ⟨0, 1, 0⟩ 1 ⟨0, 0⟩ 0 0 0 0) uSent).worstFDratio
        = (Group.mk ⟨0, 1, 0⟩ 1 ⟨0, 0⟩ 0 0 0 0).worstFDratio ∧
      (uSent.filedesc.open_ : ℚ) / (uSent.filedesc.limit : ℚ) < 0 :=
  ⟨c10_worst_fd_ratio.1 [mkGUpd dR] "g" (Group.mk ⟨0, 1, 0⟩ 1 ⟨0, 0⟩ 0 0 0 0)
      (by norm_num [buildGroups, buildStep, groupadd, mkGUpd, dR, Group.zero,
        Counts.add, Counts.zero]),
    c10_worst_fd_ratio.2.1 (Group.mk ⟨0, 1, 0⟩ 1 ⟨0, 0⟩ 0 0 0 0) uSent rfl (by norm_num),
    c10_worst_fd_ratio.2.2.1 uSent rfl (by norm_num [uSent])⟩

/-- **C1** (corrected): over the A/B scenario, the emitted group total
of cycle 4 equals B's cumulative total plus A's frozen final total,
each member's growth counted exactly once; equivalently it equals
cycle-3's totals plus only B's cycle-4 growth — A's frozen final
total is already contained in cycle-3's totals and is not added a
second time. -/
theorem c1_group_accumulation_amended (a1 a2 a3 b1 b2 b3 b4 : Counts) :
    emitCounts (grouperRunEmit (fun _ => none) (c1Cycles a1 a2 a3 b1 b2 b3 b4)) "g"
        = some ((((b1.add b2).add b3).add b4).add ((a1.add a2).add a3)) ∧
      emitCounts (grouperRunEmit (fun _ => none)
          [[mkGUpd a1, mkGUpd b1], [mkGUpd a2, mkGUpd b2], [mkGUpd a3, mkGUpd b3]]) "g"
        = some (((b1.add b2).add b3).add ((a1.add a2).add a3)) ∧
      emitCounts (grouperRunEmit (fun _ => none) (c1Cycles a1 a2 a3 b1 b2 b3 b4)) "g"
        = some ((((b1.add b2).add b3).add ((a1.add a2).add a3)).add b4) := by
  refine ⟨?_, ?_, ?_⟩ <;>
    · norm_num [grouperRunEmit, grouperUpdate, buildGroups, buildStep, groupadd,
        emitCounts, mkGUpd, c1Cycles, Counts.add, Group.zero, Counts.zero]
      refine ⟨by ring, by ring, by ring⟩

end ProcExporter
